import Mathlib

/-!
Shallow embedding of `src/IAZIS_lab1/static/evaluation.js`, the client-side
controller of an information-retrieval evaluation dashboard.

Numeric metric values are modelled as rationals (`ℚ`); JS strings that only
carry text are modelled as `String`, while query identifiers (whose lengths
and truncation matter) are modelled as `List Char` so that length reasoning
is elementwise.  DOM mutations are modelled as primitive operations on an
explicit `ViewState`; the asynchronous request lifecycle is modelled as the
list of primitive operations one invocation performs, split into the
synchronous segments separated by its `await` points.  Since the source has
no single-flight guard, any number of invocations may be in flight at once:
a controller state carries the suspended invocations, a scheduler step runs
one synchronous segment atomically, segments of overlapping invocations
interleave arbitrarily, and reachability of controller states is an
inductive relation over scheduler steps.
-/

namespace Evaluation

/-- Embeds `getValueClass` (evaluation.js lines 191-195):
`value >= 0.7 → 'high'`, `value >= 0.4 → 'medium'`, otherwise `'low'`. -/
def getValueClass (value : ℚ) : String :=
  if value ≥ 7/10 then "high"
  else if value ≥ 4/10 then "medium"
  else "low"

/-- Embeds `getStatusClass` (evaluation.js lines 197-202). -/
def getStatusClass (value : ℚ) : String :=
  if value ≥ 8/10 then "status-excellent"
  else if value ≥ 6/10 then "status-good"
  else if value ≥ 4/10 then "status-fair"
  else "status-poor"

/-- Embeds `getStatusText` (evaluation.js lines 204-209); the strings are the
localized (Russian) tier labels. -/
def getStatusText (value : ℚ) : String :=
  if value ≥ 8/10 then "Отлично"
  else if value ≥ 6/10 then "Хорошо"
  else if value ≥ 4/10 then "Удовлетворительно"
  else "Плохо"

end Evaluation

/-- C1: `getValueClass` is a total function returning `'high'` exactly when
`v ≥ 0.7`, `'medium'` exactly when `0.4 ≤ v < 0.7`, `'low'` exactly when
`v < 0.4`; the boundary inputs `0.7` and `0.4` fall into the higher tier. -/
theorem Evaluation.getValueClass_tiers (v : ℚ) :
    (Evaluation.getValueClass v = "high" ↔ 7/10 ≤ v) ∧
    (Evaluation.getValueClass v = "medium" ↔ 4/10 ≤ v ∧ v < 7/10) ∧
    (Evaluation.getValueClass v = "low" ↔ v < 4/10) ∧
    Evaluation.getValueClass (7/10) = "high" ∧
    Evaluation.getValueClass (4/10) = "medium" := by
  unfold Evaluation.getValueClass
  refine ⟨?_, ?_, ?_, by norm_num, by norm_num⟩ <;>
    split_ifs with h1 h2 <;> simp_all <;> intros <;> linarith

/-- C2: the status-tier classifier returns the Excellent tier exactly when
`v ≥ 0.8`, Good exactly when `0.6 ≤ v < 0.8`, Fair exactly when
`0.4 ≤ v < 0.6`, Poor exactly when `v < 0.4`, in both its class and text
renderings; each boundary input (`0.8`, `0.6`, `0.4`) resolves to the
higher tier. -/
theorem Evaluation.statusTier_tiers (v : ℚ) :
    (Evaluation.getStatusClass v = "status-excellent" ↔ 8/10 ≤ v) ∧
    (Evaluation.getStatusClass v = "status-good" ↔ 6/10 ≤ v ∧ v < 8/10) ∧
    (Evaluation.getStatusClass v = "status-fair" ↔ 4/10 ≤ v ∧ v < 6/10) ∧
    (Evaluation.getStatusClass v = "status-poor" ↔ v < 4/10) ∧
    (Evaluation.getStatusText v = "Отлично" ↔ 8/10 ≤ v) ∧
    (Evaluation.getStatusText v = "Хорошо" ↔ 6/10 ≤ v ∧ v < 8/10) ∧
    (Evaluation.getStatusText v = "Удовлетворительно" ↔ 4/10 ≤ v ∧ v < 6/10) ∧
    (Evaluation.getStatusText v = "Плохо" ↔ v < 4/10) ∧
    Evaluation.getStatusClass (8/10) = "status-excellent" ∧
    Evaluation.getStatusClass (6/10) = "status-good" ∧
    Evaluation.getStatusClass (4/10) = "status-fair" ∧
    Evaluation.getStatusText (8/10) = "Отлично" ∧
    Evaluation.getStatusText (6/10) = "Хорошо" ∧
    Evaluation.getStatusText (4/10) = "Удовлетворительно" := by
  unfold Evaluation.getStatusClass Evaluation.getStatusText
  refine ⟨?_, ?_, ?_, ?_, ?_, ?_, ?_, ?_,
    by norm_num, by norm_num, by norm_num, by norm_num, by norm_num, by norm_num⟩ <;>
    split_ifs with h1 h2 h3 <;> simp_all <;> intros <;> linarith

/-- C10: `getStatusClass` and `getStatusText` agree on the tier for every
value: they are the same classifier rendered as a CSS class and as a
localized label. -/
theorem Evaluation.statusClass_agrees_statusText (v : ℚ) :
    (Evaluation.getStatusClass v = "status-excellent" ↔
      Evaluation.getStatusText v = "Отлично") ∧
    (Evaluation.getStatusClass v = "status-good" ↔
      Evaluation.getStatusText v = "Хорошо") ∧
    (Evaluation.getStatusClass v = "status-fair" ↔
      Evaluation.getStatusText v = "Удовлетворительно") ∧
    (Evaluation.getStatusClass v = "status-poor" ↔
      Evaluation.getStatusText v = "Плохо") := by
  unfold Evaluation.getStatusClass Evaluation.getStatusText
  split_ifs <;> simp_all

namespace Evaluation

/-- A primitive DOM visibility/content mutation on the three main panels
(loading indicator, results panel, error banner).  These embed the helper
functions of evaluation.js lines 215-238: `showLoading`/`hideLoading`
toggle the `hidden` class of the loading element, `showResults`/
`hideResults` of the results element, `showError msg` sets the error
element's `textContent` to `msg` and unhides it, `hideError` hides it. -/
inductive UIOp
  | showLoading
  | hideLoading
  | showResults
  | hideResults
  | showError (msg : String)
  | hideError
deriving DecidableEq

/-- Outcome of the awaited fetch inside `runEvaluation`'s `try` block:
`success` — the response parsed with `data.success` true and
`displayResults` completed (ending in `showResults`); `failure err` —
`data.success` false with `data.error = err`; `exception msg` — any throw
inside the `try` (network failure, JSON parse error, or a render-time
throw), caught by the `catch (error)` clause with `error.message = msg`. -/
inductive FetchOutcome
  | success
  | failure (err : String)
  | exception (msg : String)
deriving DecidableEq

/-- The message prefix of the `catch` branch (evaluation.js line 49). -/
def evalErrorPrefixText : String := "Ошибка при выполнении оценки: "

/-- Embeds `runEvaluation` (evaluation.js lines 21-53) as the sequence of
primitive panel operations one invocation performs, in program order:
`showLoading(); hideResults(); hideError();` then the awaited fetch, then
the branch on `data.success` (rendering into the results/plots/detailed
containers touches none of the three panels and is modelled separately by
the pure display functions), and `finally { hideLoading(); }`. -/
def runEvaluationOps (resp : FetchOutcome) : List UIOp :=
  [UIOp.showLoading, UIOp.hideResults, UIOp.hideError] ++
    (match resp with
      | FetchOutcome.success => [UIOp.showResults]
      | FetchOutcome.failure err => [UIOp.showError err]
      | FetchOutcome.exception msg =>
          [UIOp.showError (evalErrorPrefixText ++ msg)]) ++
    [UIOp.hideLoading]

/-- The view state tracked by the controller: visibility of the loading
indicator, results panel and error banner (absence of the `hidden` CSS
class), the error banner's `textContent`, and whether the metrics-info
modal is open. -/
structure ViewState where
  loadingVisible : Bool
  resultsVisible : Bool
  errorVisible : Bool
  errorText : String
  modalOpen : Bool
deriving DecidableEq

/-- Effect of one primitive panel operation on the view state. -/
def applyOp (s : ViewState) : UIOp → ViewState
  | UIOp.showLoading => { s with loadingVisible := true }
  | UIOp.hideLoading => { s with loadingVisible := false }
  | UIOp.showResults => { s with resultsVisible := true }
  | UIOp.hideResults => { s with resultsVisible := false }
  | UIOp.showError msg => { s with errorText := msg, errorVisible := true }
  | UIOp.hideError => { s with errorVisible := false }

/-- Running a sequence of primitive operations from a state. -/
def applyOps (s : ViewState) (ops : List UIOp) : ViewState :=
  ops.foldl applyOp s

/-- Net effect of one `runEvaluation` invocation on the view state. -/
def runEvaluationState (s : ViewState) (resp : FetchOutcome) : ViewState :=
  applyOps s (runEvaluationOps resp)

end Evaluation

/-- C3: in every execution of `runEvaluation`, the first three operations
are exactly setting Loading and clearing the previous Results and Error
panels, and — whatever the branch taken on the response (success,
application-level failure, or caught exception) — Loading is cleared
exactly once, as the last operation. -/
theorem Evaluation.runEvaluation_ordering (resp : Evaluation.FetchOutcome) :
    (Evaluation.runEvaluationOps resp).take 3 =
      [Evaluation.UIOp.showLoading, Evaluation.UIOp.hideResults,
        Evaluation.UIOp.hideError] ∧
    (Evaluation.runEvaluationOps resp).getLast? =
      some Evaluation.UIOp.hideLoading ∧
    (Evaluation.runEvaluationOps resp).count Evaluation.UIOp.hideLoading = 1 := by
  cases resp <;>
    simp [Evaluation.runEvaluationOps, List.count_cons, List.getLast?]

/-- C4: when the endpoint responds with `success = false` and message
`err`, `runEvaluation` leaves the view with the error banner visible and
showing exactly `err`, the loading indicator hidden, and the results panel
hidden — from any starting view state. -/
theorem Evaluation.runEvaluation_failure_state (s : Evaluation.ViewState)
    (err : String) :
    (Evaluation.runEvaluationState s (Evaluation.FetchOutcome.failure err)).errorVisible
        = true ∧
    (Evaluation.runEvaluationState s (Evaluation.FetchOutcome.failure err)).errorText
        = err ∧
    (Evaluation.runEvaluationState s (Evaluation.FetchOutcome.failure err)).loadingVisible
        = false ∧
    (Evaluation.runEvaluationState s (Evaluation.FetchOutcome.failure err)).resultsVisible
        = false := by
  simp [Evaluation.runEvaluationState, Evaluation.runEvaluationOps,
    Evaluation.applyOps, Evaluation.applyOp]

namespace Evaluation

/-- The fixed message of `showMetricsInfo`'s catch branch (line 61). -/
def metricsInfoErrorText : String := "Ошибка при загрузке информации о метриках"

/-- The synchronous prefix of `runEvaluation` (evaluation.js lines 22-24),
run atomically before its first `await`:
`showLoading(); hideResults(); hideError();`. -/
def runEvalStartOps : List UIOp :=
  [UIOp.showLoading, UIOp.hideResults, UIOp.hideError]

/-- The synchronous completion segment of `runEvaluation` (lines 43-52),
run atomically when its awaited request settles with outcome `resp`: the
branch on `data.success`, then `finally { hideLoading(); }`. -/
def runEvalSettleOps (resp : FetchOutcome) : List UIOp :=
  (match resp with
    | FetchOutcome.success => [UIOp.showResults]
    | FetchOutcome.failure err => [UIOp.showError err]
    | FetchOutcome.exception msg =>
        [UIOp.showError (evalErrorPrefixText ++ msg)]) ++
    [UIOp.hideLoading]

/-- The two synchronous segments of one invocation compose to the full
per-invocation operation sequence. -/
theorem runEvaluationOps_eq_start_append_settle (resp : FetchOutcome) :
    runEvaluationOps resp = runEvalStartOps ++ runEvalSettleOps resp := by
  cases resp <;> rfl

/-- The page-load view: all three panels carry the `hidden` class, the
error banner's text is empty, the modal is closed. -/
def initState : ViewState := ⟨false, false, false, "", false⟩

/-- At most one of the loading indicator, results panel, error banner is
visible. -/
def exclusivePanels (s : ViewState) : Bool :=
  (cond s.loadingVisible 1 0) + (cond s.resultsVisible 1 0)
    + (cond s.errorVisible 1 0) ≤ 1

/-- Whole controller state: the view plus the asynchronous invocations
currently suspended at their `await` points.  The source has no
single-flight guard, so any number of `runEvaluation` requests may be
outstanding at once: `pendingEval` lists them with the outcome each will
eventually settle with, and `pendingInfo` lists the outstanding
`showMetricsInfo` fetches (`true` = will succeed). -/
structure ControllerState where
  view : ViewState
  pendingEval : List FetchOutcome
  pendingInfo : List Bool
deriving DecidableEq

/-- The page-load controller state: all panels hidden, nothing in
flight. -/
def initController : ControllerState := ⟨initState, [], []⟩

/-- A scheduler step of the single-threaded event loop.  Each synchronous
segment runs atomically, and segments of overlapping invocations
interleave arbitrarily at the `await` points: `startEval resp` is a
`runEvaluation` click (runs the prefix ops and suspends the invocation);
`settleEval n` resumes the `n`-th outstanding evaluation request, in any
order; `startInfo ok` is a `showMetricsInfo` click (its prefix touches no
panel); `settleInfo n` resumes the `n`-th outstanding info fetch — on
success it renders the info and opens the modal (lines 57-59, 188), on
failure it runs `showError(metricsInfoErrorText)` (line 61); `closeModal`
is the close control or a click outside the modal (lines 12-19). -/
inductive AsyncEvent
  | startEval (resp : FetchOutcome)
  | settleEval (n : ℕ)
  | startInfo (ok : Bool)
  | settleInfo (n : ℕ)
  | closeModal

/-- Effect of one scheduler step on the controller state.  Settling an
index with no outstanding invocation is a no-op (no such schedule occurs;
it is included to keep the function total). -/
def stepController (s : ControllerState) : AsyncEvent → ControllerState
  | AsyncEvent.startEval resp =>
      { s with view := applyOps s.view runEvalStartOps,
               pendingEval := s.pendingEval ++ [resp] }
  | AsyncEvent.settleEval n =>
      match s.pendingEval[n]? with
      | some resp =>
          { s with view := applyOps s.view (runEvalSettleOps resp),
                   pendingEval := s.pendingEval.eraseIdx n }
      | none => s
  | AsyncEvent.startInfo ok =>
      { s with pendingInfo := s.pendingInfo ++ [ok] }
  | AsyncEvent.settleInfo n =>
      match s.pendingInfo[n]? with
      | some true =>
          { s with view := { s.view with modalOpen := true },
                   pendingInfo := s.pendingInfo.eraseIdx n }
      | some false =>
          { s with view := applyOp s.view (UIOp.showError metricsInfoErrorText),
                   pendingInfo := s.pendingInfo.eraseIdx n }
      | none => s
  | AsyncEvent.closeModal => { s with view := { s.view with modalOpen := false } }

/-- Controller states reachable from page load through schedules whose
every step satisfies `allowed`, a predicate that may inspect the
pre-state (e.g. to restrict attention to non-overlapping schedules). -/
inductive ReachableSchedVia (allowed : ControllerState → AsyncEvent → Prop) :
    ControllerState → Prop
  | init : ReachableSchedVia allowed initController
  | next {s : ControllerState} (e : AsyncEvent) :
      ReachableSchedVia allowed s → allowed s e →
      ReachableSchedVia allowed (stepController s e)

/-- A successful evaluation run, run to completion, followed by a
metrics-info fetch that fails. -/
def resultsThenInfoFailureState : ControllerState :=
  stepController (stepController (stepController (stepController
    initController (AsyncEvent.startEval FetchOutcome.success))
    (AsyncEvent.settleEval 0)) (AsyncEvent.startInfo false))
    (AsyncEvent.settleInfo 0)

/-- Two overlapping `runEvaluation` invocations: both prefixes run, then
the first settles successfully and the second settles with an
application-level failure. -/
def overlappingRunsState : ControllerState :=
  stepController (stepController (stepController (stepController
    initController (AsyncEvent.startEval FetchOutcome.success))
    (AsyncEvent.startEval (FetchOutcome.failure "qrels not found")))
    (AsyncEvent.settleEval 0)) (AsyncEvent.settleEval 0)

/-- Serialized main-flow schedules: a new evaluation request may start
only when none is outstanding (the single-flight discipline the source's
Loading flag only visually approximates), and no failing metrics-info
fetch settles; settling the outstanding evaluation with any outcome,
successful metrics-info fetches, and modal events are unrestricted. -/
def serializedMainFlow (s : ControllerState) : AsyncEvent → Prop
  | AsyncEvent.startEval _ => s.pendingEval = []
  | AsyncEvent.settleInfo n => s.pendingInfo[n]? ≠ some false
  | _ => True

/-- Inductive invariant of serialized main-flow schedules: the three
panels are mutually exclusive and, while an evaluation request is in
flight, it is the only one and the loading indicator alone is shown. -/
def serializedInv (s : ControllerState) : Prop :=
  exclusivePanels s.view = true ∧
  (s.pendingEval = [] ∨
    ∃ r, s.pendingEval = [r] ∧ s.view.loadingVisible = true ∧
      s.view.resultsVisible = false ∧ s.view.errorVisible = false)

/-- The invariant holds along every serialized main-flow schedule. -/
theorem serializedInv_of_reachable {t : ControllerState}
    (h : ReachableSchedVia serializedMainFlow t) : serializedInv t := by
  induction h with
  | init => exact ⟨rfl, Or.inl rfl⟩
  | next e hs he ih =>
    rename_i s
    obtain ⟨hex, hpend⟩ := ih
    cases e with
    | startEval resp =>
      have hp : s.pendingEval = [] := he
      refine ⟨?_, Or.inr ⟨resp, ?_, ?_, ?_, ?_⟩⟩ <;>
        simp [stepController, applyOps, runEvalStartOps, applyOp,
          exclusivePanels, hp]
    | settleEval n =>
      rcases hpend with hnil | ⟨r, hr, hl, hres, herr⟩
      · simp only [stepController, hnil, List.getElem?_nil]
        exact ⟨hex, Or.inl hnil⟩
      · cases n with
        | zero =>
          refine ⟨?_, Or.inl ?_⟩ <;>
            cases r <;>
              simp [stepController, hr, applyOps, runEvalSettleOps, applyOp,
                exclusivePanels, hl, hres, herr]
        | succ m =>
          simp only [stepController, hr, List.getElem?_cons_succ,
            List.getElem?_nil]
          exact ⟨hex, Or.inr ⟨r, hr, hl, hres, herr⟩⟩
    | startInfo ok => exact ⟨hex, hpend⟩
    | settleInfo n =>
      have hne : s.pendingInfo[n]? ≠ some false := he
      cases hinfo : s.pendingInfo[n]? with
      | none =>
        simp only [stepController, hinfo]
        exact ⟨hex, hpend⟩
      | some b =>
        cases b with
        | false => exact absurd hinfo hne
        | true =>
          simp only [stepController, hinfo]
          exact ⟨hex, hpend⟩
    | closeModal => exact ⟨hex, hpend⟩

end Evaluation

/-- C5 counterexample: the state reached by a completed successful
`runEvaluation` followed by a failed `showMetricsInfo` fetch is
reachable, yet both the Results panel and the Error banner are visible in
it — `showError` never hides the results panel, so the claimed
mutual-exclusion invariant fails. -/
theorem Evaluation.exclusivePanels_fails_after_info_failure :
    Evaluation.ReachableSchedVia (fun _ _ => True)
        Evaluation.resultsThenInfoFailureState ∧
    Evaluation.resultsThenInfoFailureState.view.resultsVisible = true ∧
    Evaluation.resultsThenInfoFailureState.view.errorVisible = true ∧
    Evaluation.exclusivePanels Evaluation.resultsThenInfoFailureState.view
      = false :=
  ⟨Evaluation.ReachableSchedVia.next (Evaluation.AsyncEvent.settleInfo 0)
      (Evaluation.ReachableSchedVia.next
        (Evaluation.AsyncEvent.startInfo false)
        (Evaluation.ReachableSchedVia.next
          (Evaluation.AsyncEvent.settleEval 0)
          (Evaluation.ReachableSchedVia.next
            (Evaluation.AsyncEvent.startEval Evaluation.FetchOutcome.success)
            Evaluation.ReachableSchedVia.init trivial)
          trivial)
        trivial)
      trivial,
    rfl, rfl, rfl⟩

/-- Two overlapping `runEvaluation` invocations — which the source
permits, having no single-flight guard — also defeat panel exclusivity,
without any metrics-info event: the second invocation's prefix runs while
the first is in flight, the first settles successfully and shows the
results, then the second settles with a failure and overlays the error
banner on the still-visible results panel. -/
theorem Evaluation.exclusivePanels_fails_on_overlapping_runs :
    Evaluation.ReachableSchedVia (fun _ _ => True)
        Evaluation.overlappingRunsState ∧
    Evaluation.overlappingRunsState.view.resultsVisible = true ∧
    Evaluation.overlappingRunsState.view.errorVisible = true ∧
    Evaluation.exclusivePanels Evaluation.overlappingRunsState.view
      = false :=
  ⟨Evaluation.ReachableSchedVia.next (Evaluation.AsyncEvent.settleEval 0)
      (Evaluation.ReachableSchedVia.next
        (Evaluation.AsyncEvent.settleEval 0)
        (Evaluation.ReachableSchedVia.next
          (Evaluation.AsyncEvent.startEval
            (Evaluation.FetchOutcome.failure "qrels not found"))
          (Evaluation.ReachableSchedVia.next
            (Evaluation.AsyncEvent.startEval Evaluation.FetchOutcome.success)
            Evaluation.ReachableSchedVia.init trivial)
          trivial)
        trivial)
      trivial,
    rfl, rfl, rfl⟩

/-- C5 amended: in every controller state reachable through serialized
main-flow schedules — evaluation requests that never overlap (at most one
in flight), settling with any outcome in any interleaving with
metrics-info fetches that do not fail and with modal events — at most one
of the loading indicator, results panel and error banner is visible.
Both exclusions are forced: the metrics-info failure path and overlapping
evaluation requests each reach a state showing the Results panel and the
Error banner simultaneously. -/
theorem Evaluation.exclusivePanels_of_serialized_main_flows
    (s : Evaluation.ControllerState)
    (h : Evaluation.ReachableSchedVia Evaluation.serializedMainFlow s) :
    Evaluation.exclusivePanels s.view = true :=
  (Evaluation.serializedInv_of_reachable h).1

/-- Witness for the amended C5 theorem at a concrete serialized
schedule. -/
theorem Evaluation.exclusivePanels_of_serialized_main_flows_witness :
    Evaluation.exclusivePanels
      (Evaluation.stepController (Evaluation.stepController
        Evaluation.initController
        (Evaluation.AsyncEvent.startEval
          (Evaluation.FetchOutcome.failure "qrels not found")))
        (Evaluation.AsyncEvent.settleEval 0)).view = true :=
  Evaluation.exclusivePanels_of_serialized_main_flows _
    (Evaluation.ReachableSchedVia.next (Evaluation.AsyncEvent.settleEval 0)
      (Evaluation.ReachableSchedVia.next
        (Evaluation.AsyncEvent.startEval
          (Evaluation.FetchOutcome.failure "qrels not found"))
        Evaluation.ReachableSchedVia.init rfl)
      trivial)

namespace Evaluation

/-- Renders a natural number below 1000 as exactly three digits. -/
def pad3 (n : ℕ) : String :=
  if n < 10 then "00" ++ toString n
  else if n < 100 then "0" ++ toString n
  else toString n

/-- Embeds `value.toFixed(3)` for the nonnegative metric values displayed
by the page: round to the nearest thousandth (half up) and print with
exactly three digits after the decimal point. -/
def toFixed3 (q : ℚ) : String :=
  let n : ℤ := ⌊q * 1000 + 1/2⌋
  toString (n / 1000) ++ "." ++ pad3 (n % 1000).toNat

/-- Embeds `truncateText` (evaluation.js lines 211-213):
`text.length > maxLength ? text.substring(0, maxLength) + '...' : text`.
JS strings are modelled as lists of characters. -/
def truncateText (text : List Char) (maxLength : ℕ) : List Char :=
  if text.length > maxLength then text.take maxLength ++ ['.', '.', '.']
  else text

/-- One entry of the `per_query` mapping: the four metric values plus the
confusion-matrix counts, as consumed by `displayDetailedMetrics`. -/
structure QueryMetrics where
  precision : ℚ
  «recall» : ℚ
  f_measure : ℚ
  accuracy : ℚ
  true_positive : ℕ
  false_positive : ℕ
  false_negative : ℕ
deriving DecidableEq

/-- One `<tr>` of the detailed table (evaluation.js lines 156-166):
the query cell's `title` attribute and truncated label, the four metric
cells (CSS class from `getValueClass`, text from `toFixed(3)`), the
slash-joined `TP/FP/FN` string, and the status cell. -/
structure Row where
  title : List Char
  label : List Char
  precisionClass : String
  precisionText : String
  recallClass : String
  recallText : String
  fMeasureClass : String
  fMeasureText : String
  accuracyClass : String
  accuracyText : String
  stats : String
  statusClass : String
  statusText : String
deriving DecidableEq

/-- Builds one table row from one `[query, metrics]` entry, following the
body of the `forEach` in evaluation.js lines 151-167. -/
def mkRow (entry : List Char × QueryMetrics) : Row :=
  let query := entry.1
  let metrics := entry.2
  { title := query
    label := truncateText query 30
    precisionClass := getValueClass metrics.precision
    precisionText := toFixed3 metrics.precision
    recallClass := getValueClass metrics.«recall»
    recallText := toFixed3 metrics.«recall»
    fMeasureClass := getValueClass metrics.f_measure
    fMeasureText := toFixed3 metrics.f_measure
    accuracyClass := getValueClass metrics.accuracy
    accuracyText := toFixed3 metrics.accuracy
    stats := toString metrics.true_positive ++ "/"
      ++ toString metrics.false_positive ++ "/"
      ++ toString metrics.false_negative
    statusClass := getStatusClass metrics.f_measure
    statusText := getStatusText metrics.f_measure }

/-- Output of the detailed section: either the single "no data" notice or
a table holding the built rows. -/
inductive DetailedView
  | noData
  | table (rows : List Row)
deriving DecidableEq

/-- Embeds `displayDetailedMetrics` (evaluation.js lines 126-171).  The JS
object `perQueryMetrics` is modelled as the list of its entries in
iteration order (what `Object.entries` returns); `Object.keys(...).length
=== 0` guards the "no data" notice, otherwise the `forEach` appends one
row per entry to the accumulated table, modelled by a `foldl`.  The
`operator` argument is accepted but unused, as in the source. -/
def displayDetailedMetrics (perQueryMetrics : List (List Char × QueryMetrics))
    (operator : String) : DetailedView :=
  if perQueryMetrics.length = 0 then DetailedView.noData
  else DetailedView.table
    (perQueryMetrics.foldl (fun tableRows entry => tableRows ++ [mkRow entry]) [])

/-- Appending one mapped element per step is the same as mapping. -/
theorem foldl_append_singleton_eq_map {α β : Type} (f : α → β) :
    ∀ (l : List α) (acc : List β),
      l.foldl (fun rows e => rows ++ [f e]) acc = acc ++ l.map f := by
  intro l
  induction l with
  | nil => intro acc; simp
  | cons x xs ih => intro acc; simp [List.foldl, ih]

end Evaluation

/-- C6: for every non-empty per-query mapping, the detailed table holds
exactly one row per entry, in the mapping's iteration order: the rows are
the entries mapped through `mkRow`, so the row count equals the entry
count and the sequence of row titles equals the sequence of query keys —
no reordering by value or name. -/
theorem Evaluation.displayDetailedMetrics_row_order
    (l : List (List Char × Evaluation.QueryMetrics)) (op : String)
    (h : l ≠ []) :
    Evaluation.displayDetailedMetrics l op =
      Evaluation.DetailedView.table (l.map Evaluation.mkRow) ∧
    (l.map Evaluation.mkRow).length = l.length ∧
    (l.map Evaluation.mkRow).map Evaluation.Row.title = l.map Prod.fst := by
  refine ⟨?_, by simp, ?_⟩
  · unfold Evaluation.displayDetailedMetrics
    rw [Evaluation.foldl_append_singleton_eq_map]
    simp [List.length_eq_zero, h]
  · rw [List.map_map]
    exact List.map_congr_left fun e _ => rfl

/-- Concrete data used by the witnesses below. -/
def Evaluation.sampleMetricsA : Evaluation.QueryMetrics :=
  ⟨9/10, 1/2, 643/1000, 95/100, 9, 1, 9⟩

/-- Concrete data used by the witnesses below. -/
def Evaluation.sampleMetricsB : Evaluation.QueryMetrics :=
  ⟨1/10, 2/10, 3/10, 4/10, 0, 2, 3⟩

/-- Witness for C6 at a concrete two-entry mapping. -/
theorem Evaluation.displayDetailedMetrics_row_order_witness :
    ([(['q', '1'], Evaluation.sampleMetricsA),
      (['q', '2'], Evaluation.sampleMetricsB)] :
        List (List Char × Evaluation.QueryMetrics)) ≠ [] ∧
    Evaluation.displayDetailedMetrics
        [(['q', '1'], Evaluation.sampleMetricsA),
         (['q', '2'], Evaluation.sampleMetricsB)] "AND" =
      Evaluation.DetailedView.table
        [Evaluation.mkRow (['q', '1'], Evaluation.sampleMetricsA),
         Evaluation.mkRow (['q', '2'], Evaluation.sampleMetricsB)] :=
  ⟨by simp,
    (Evaluation.displayDetailedMetrics_row_order _ "AND" (by simp)).1⟩

/-- C7: the displayed query label is the identifier unchanged when its
length is at most 30, and its first 30 characters followed by the
3-character `'...'` suffix when longer, so the label's length is
`min L 30` plus 3 exactly when truncated; the full identifier is always
placed in the row's `title` attribute. -/
theorem Evaluation.truncation_law (q : List Char) (m : Evaluation.QueryMetrics) :
    (Evaluation.mkRow (q, m)).title = q ∧
    (Evaluation.mkRow (q, m)).label = Evaluation.truncateText q 30 ∧
    Evaluation.truncateText q 30 =
      (if 30 < q.length then q.take 30 ++ ['.', '.', '.'] else q) ∧
    (Evaluation.truncateText q 30).length =
      min q.length 30 + (if 30 < q.length then 3 else 0) := by
  refine ⟨rfl, rfl, ?_, ?_⟩ <;>
    · unfold Evaluation.truncateText
      split_ifs <;> simp_all [List.length_take] <;> omega

/-- C9: the detailed section renders the single "no data" notice exactly
when the per-query mapping is empty, and a table (never the notice) for
every non-empty mapping. -/
theorem Evaluation.displayDetailedMetrics_empty_notice
    (l : List (List Char × Evaluation.QueryMetrics)) (op : String) :
    (Evaluation.displayDetailedMetrics l op = Evaluation.DetailedView.noData
      ↔ l = []) ∧
    ((∃ rows, Evaluation.displayDetailedMetrics l op =
        Evaluation.DetailedView.table rows) ↔ l ≠ []) := by
  unfold Evaluation.displayDetailedMetrics
  constructor <;> split_ifs with h <;> simp_all [List.length_eq_zero]

namespace Evaluation

/-- One element of the fixed `metrics` array of `displayMacroMetrics`
(evaluation.js lines 76-81): the lookup key, the English name and the
localized description of one macro metric. -/
structure MetricDesc where
  key : String
  name : String
  description : String
deriving DecidableEq

/-- The fixed `metrics` array (evaluation.js lines 76-81), in source
order: precision, recall, f_measure, accuracy. -/
def macroMetricDescs : List MetricDesc :=
  [⟨"precision", "Precision", "Точность"⟩,
   ⟨"recall", "Recall", "Полнота"⟩,
   ⟨"f_measure", "F-measure", "F-мера"⟩,
   ⟨"accuracy", "Accuracy", "Аккуратность"⟩]

/-- One macro metric card (evaluation.js lines 87-94): localized name,
CSS value class, the value formatted by `toFixed(3)`, the English metric
name, and the operator line. -/
structure Card where
  metricName : String
  valueClass : String
  valueText : String
  metricDesc : String
  operatorInfo : String
deriving DecidableEq

/-- Builds one card for one entry of the fixed metric list. -/
def mkCard (md : MetricDesc) (value : ℚ) (operator : String) : Card :=
  { metricName := md.description
    valueClass := getValueClass value
    valueText := toFixed3 value
    metricDesc := md.name
    operatorInfo := "Оператор: " ++ operator }

/-- Embeds `displayMacroMetrics` (evaluation.js lines 72-97).  The input
object `macroMetrics` is modelled as an association list in arbitrary
order, read only through `macroMetrics[metric.key]`; the `forEach` over
the fixed metric list appends one card per metric.  A missing key makes
the JS throw (`undefined.toFixed`), modelled by `none`; once `none`, the
fold stays `none`, matching the aborted loop. -/
def displayMacroMetrics (macroMetrics : List (String × ℚ))
    (operator : String) : Option (List Card) :=
  macroMetricDescs.foldl
    (fun cards md =>
      match cards, macroMetrics.lookup md.key with
      | some cs, some value => some (cs ++ [mkCard md value operator])
      | _, _ => none)
    (some [])

end Evaluation

/-- C8: for every macro input providing the four metric keys, the macro
section produces exactly the 4 cards in the fixed order precision, recall,
f_measure, accuracy — determined by the fixed metric list, not by the
iteration order of the input — each showing the `toFixed(3)`-formatted
value, its visual tier class, and the active operator label. -/
theorem Evaluation.displayMacroMetrics_cards (m : List (String × ℚ))
    (op : String) (p r f a : ℚ)
    (hp : m.lookup "precision" = some p)
    (hr : m.lookup "recall" = some r)
    (hf : m.lookup "f_measure" = some f)
    (ha : m.lookup "accuracy" = some a) :
    Evaluation.displayMacroMetrics m op = some
      [{ metricName := "Точность", valueClass := Evaluation.getValueClass p,
         valueText := Evaluation.toFixed3 p, metricDesc := "Precision",
         operatorInfo := "Оператор: " ++ op },
       { metricName := "Полнота", valueClass := Evaluation.getValueClass r,
         valueText := Evaluation.toFixed3 r, metricDesc := "Recall",
         operatorInfo := "Оператор: " ++ op },
       { metricName := "F-мера", valueClass := Evaluation.getValueClass f,
         valueText := Evaluation.toFixed3 f, metricDesc := "F-measure",
         operatorInfo := "Оператор: " ++ op },
       { metricName := "Аккуратность", valueClass := Evaluation.getValueClass a,
         valueText := Evaluation.toFixed3 a, metricDesc := "Accuracy",
         operatorInfo := "Оператор: " ++ op }] := by
  simp [Evaluation.displayMacroMetrics, Evaluation.macroMetricDescs,
    Evaluation.mkCard, hp, hr, hf, ha]

/-- Concrete macro input for the C8 witness, listed in an order different
from the card order to show the result ignores input iteration order. -/
def Evaluation.sampleMacro : List (String × ℚ) :=
  [("accuracy", 9/10), ("f_measure", 725/1000),
   ("recall", 65/100), ("precision", 82/100)]

/-- Witness for C8 at the concrete scrambled-order macro input. -/
theorem Evaluation.displayMacroMetrics_cards_witness :
    Evaluation.sampleMacro.lookup "precision" = some (82/100) ∧
    Evaluation.sampleMacro.lookup "recall" = some (65/100) ∧
    Evaluation.sampleMacro.lookup "f_measure" = some (725/1000) ∧
    Evaluation.sampleMacro.lookup "accuracy" = some (9/10) ∧
    Evaluation.displayMacroMetrics Evaluation.sampleMacro "AND" = some
      [{ metricName := "Точность",
         valueClass := Evaluation.getValueClass (82/100),
         valueText := Evaluation.toFixed3 (82/100), metricDesc := "Precision",
         operatorInfo := "Оператор: " ++ "AND" },
       { metricName := "Полнота",
         valueClass := Evaluation.getValueClass (65/100),
         valueText := Evaluation.toFixed3 (65/100), metricDesc := "Recall",
         operatorInfo := "Оператор: " ++ "AND" },
       { metricName := "F-мера",
         valueClass := Evaluation.getValueClass (725/1000),
         valueText := Evaluation.toFixed3 (725/1000), metricDesc := "F-measure",
         operatorInfo := "Оператор: " ++ "AND" },
       { metricName := "Аккуратность",
         valueClass := Evaluation.getValueClass (9/10),
         valueText := Evaluation.toFixed3 (9/10), metricDesc := "Accuracy",
         operatorInfo := "Оператор: " ++ "AND" }] :=
  ⟨by simp [Evaluation.sampleMacro, List.lookup],
    by simp [Evaluation.sampleMacro, List.lookup],
    by simp [Evaluation.sampleMacro, List.lookup],
    by simp [Evaluation.sampleMacro, List.lookup],
    Evaluation.displayMacroMetrics_cards Evaluation.sampleMacro "AND"
      (82/100) (65/100) (725/1000) (9/10)
      (by simp [Evaluation.sampleMacro, List.lookup])
      (by simp [Evaluation.sampleMacro, List.lookup])
      (by simp [Evaluation.sampleMacro, List.lookup])
      (by simp [Evaluation.sampleMacro, List.lookup])⟩
